import Mathlib

/-!
Verification of the SolarSync job-processing pipeline against its
natural-language specification.

The development shallowly embeds the Python sources under
backend/app/services and backend/app/agents:

* sizing_service.calculate_sizing  — the deterministic sizing engine;
* ai_service.predict_job_details   — the triage predictor;
* agents/sizing_agent.py, supervisor_agent.py, weather_update_agent.py,
  notification_agent.py            — the pipeline step agents and router.

Modelling conventions:

* Python float arithmetic is modelled by exact rational arithmetic (ℚ);
  all the specified numeric policies (efficiency chains, DoD, ceilings)
  are expressed exactly by the rationals the source literals denote.
* Python dicts with optional keys become structures of Option fields;
  a check such as "lat" in position becomes an Option.isSome test.
* Python exceptions become Except String; a function catching every
  exception becomes a total function matching on the Except value.
* External collaborators (weather provider, SMS sender, database) are
  injected as explicit arguments, mirroring how the spec treats them
  as narrow functional interfaces.
* String containment (the Python "in" operator on str) is modelled by
  an executable substring test over the character lists.
-/

namespace SolarSync

/-! ## String model -/

/-- One event-log record, mirroring the message dicts
appended by every agent. -/
structure Msg where
  agent : String
  message : String
deriving DecidableEq

/-- Does the list l start with pat? (helper for substring search). -/
def listHasPre : List Char → List Char → Bool
  | [], _ => true
  | _ :: _, [] => false
  | a :: as, b :: bs => if a = b then listHasPre as bs else false

/-- Does pat occur contiguously inside l? -/
def listHasSub (pat : List Char) : List Char → Bool
  | [] => listHasPre pat []
  | c :: rest => listHasPre pat (c :: rest) || listHasSub pat rest

/-- Python needle in haystack, on strings. -/
def strIn (pat s : String) : Bool := listHasSub pat.data s.data

/-- ASCII lower-casing of one character (the only case Python's
str.lower exercises on the repository's ASCII appliance names and
descriptions). -/
def pyLowerChar (c : Char) : Char :=
  if 'A' ≤ c ∧ c ≤ 'Z' then Char.ofNat (c.toNat + 32) else c

/-- Python str.lower on ASCII strings. -/
def pyLower (s : String) : String := ⟨s.data.map pyLowerChar⟩

/-- Python truthiness of an optional string (None and the empty
string are falsy). -/
def truthyStr : Option String → Bool
  | none => false
  | some s => !(s = "")

/-- Python truthiness of an optional list (None and the empty list
are falsy). -/
def truthyList {α : Type} : Option (List α) → Bool
  | none => false
  | some l => !l.isEmpty

/-- Decimal digit characters of a natural number (most significant
first), with explicit fuel; the model's rendering of numbers
interpolated into log messages. -/
def natCharsAux : Nat → Nat → List Char
  | 0, _ => []
  | fuel + 1, n =>
    if n = 0 then []
    else natCharsAux fuel (n / 10) ++ [Char.ofNat (48 + n % 10)]

/-- Decimal rendering of a natural number. -/
def natRepr (n : Nat) : String :=
  if n = 0 then "0" else ⟨natCharsAux (n + 1) n⟩

/-- Decimal rendering of an integer. -/
def intRepr (i : Int) : String :=
  if i < 0 then "-" ++ natRepr i.natAbs else natRepr i.natAbs

/-- Rendering of a rational interpolated into a log message
(numerator/denominator form; stands in for Python float formatting,
which likewise never produces letter characters). -/
def ratRepr (q : ℚ) : String := intRepr q.num ++ "/" ++ natRepr q.den

/-! ## Sizing engine (services/sizing_service.py) -/

/-- Appliance entry: a Python dict whose keys may be absent.
quantity is numeric in the source (no positivity check), hence ℚ. -/
structure Appliance where
  name : Option String
  power_w : Option ℚ
  quantity : Option ℚ
  runtime_hrs : Option ℚ
deriving DecidableEq

/-- DEFAULT_APPLIANCE_POWER_RATINGS from sizing_service.py. -/
def DEFAULT_APPLIANCE_POWER_RATINGS : List (String × ℚ) :=
  [("lights", 7), ("tv", 100), ("deep_freezer", 350), ("laptop", 60),
   ("desktop", 150), ("phone_charging", 30), ("dispenser", 500),
   ("fridge", 300)]

/-- Table lookup for a default wattage. -/
def lookupRating (n : String) : Option ℚ :=
  DEFAULT_APPLIANCE_POWER_RATINGS.lookup n

/-- Position dict: the source checks that the "lat" and "lon" keys
are present. -/
structure Position where
  lat : Option ℚ
  lon : Option ℚ
deriving DecidableEq

/-- One iteration of the appliance loop of calculate_sizing:
validate the required keys, resolve the wattage (default table when
power_w is absent), and return this appliance's
(power contribution, energy contribution) in (W, Wh). -/
def applianceStep (a : Appliance) : Except String (ℚ × ℚ) :=
  match a.name, a.quantity, a.runtime_hrs with
  | some nm, some q, some r =>
    (match a.power_w with
     | some p => .ok (p * q, p * q * r)
     | none =>
       match lookupRating (pyLower nm) with
       | some p => .ok (p * q, p * q * r)
       | none =>
         .error ("No default power rating for appliance " ++ pyLower nm ++
                 " and power_w not provided"))
  | _, _, _ =>
    .error "Appliance must contain name, quantity, and runtime_hrs"

/-- The whole appliance loop: accumulated
(total_power_w, total_energy_wh), stopping at the first invalid
entry exactly as the source loop raises there. -/
def applianceTotals : List Appliance → Except String (ℚ × ℚ)
  | [] => .ok (0, 0)
  | a :: rest => do
    let (p, e) ← applianceStep a
    let (tp, te) ← applianceTotals rest
    .ok (p + tp, e + te)

/-- The sizing result dict of calculate_sizing. roi_years is an
Option: none models the Python float("inf") returned when annual
savings are zero. -/
structure SizingResult where
  load_demand_kwh : ℚ
  power_demand_w : ℚ
  adjusted_energy_demand_kwh : ℚ
  lead_acid_ah_demand : ℚ
  lithium_ion_ah_demand : ℚ
  panel_capacity_kw : ℚ
  battery_capacity_kwh : ℚ
  inverter_capacity_kw : ℚ
  daily_output_kwh : ℚ
  excess_kwh : ℚ
  panel_cost_ksh : ℚ
  battery_cost_ksh : ℚ
  inverter_cost_ksh : ℚ
  installation_cost_ksh : ℚ
  total_cost_ksh : ℚ
  roi_years : Option ℚ
  system_efficiency : ℚ
  peak_sun_hours : ℚ
  panels_required : ℤ
  lead_acid_batteries_required : ℤ
  lithium_ion_batteries_required : ℤ
  inverters_required : ℤ
  lead_acid_batteries_series : ℤ
  lead_acid_batteries_parallel : ℤ
  lithium_ion_batteries_series : ℤ
  lithium_ion_batteries_parallel : ℤ
  battery_type : String
deriving DecidableEq

/-- Numeric body of calculate_sizing (source lines 139-239): from the
validated inputs — system type, selected battery type, accumulated
total power (W), total energy (Wh) and the fetched peak sun hours —
produce the result dict.  Every constant is the source constant. -/
def mkSizing (system_type bt : String) (total_power_w total_energy_wh p : ℚ) :
    SizingResult :=
  let load_demand_kwh := total_energy_wh / 1000
  let power_demand_w := total_power_w
  let adjusted_energy_demand_kwh := (load_demand_kwh * 1000) / (9/10) / 1000
  -- lead acid: 24 V bus, DoD 0.70, 1 day autonomy, 200 Ah / 12 V units
  let lead_acid_ah_demand := (adjusted_energy_demand_kwh * 1000) / 24
  let lead_acid_ah_demand_adjusted := lead_acid_ah_demand / (7/10) * 1
  let lead_acid_batteries_series : ℤ := Int.ceil ((24 : ℚ) / 12)
  let lead_acid_battery_bank_ah :=
    lead_acid_ah_demand_adjusted / (lead_acid_batteries_series : ℚ)
  let lead_acid_batteries_parallel : ℤ :=
    Int.ceil (lead_acid_battery_bank_ah / 200)
  let lead_acid_batteries_required :=
    lead_acid_batteries_series * lead_acid_batteries_parallel
  let lead_acid_battery_capacity_kwh :=
    ((lead_acid_batteries_required : ℚ) * 200 * 12) / 1000
  -- lithium ion: 48 V bus, DoD 1.00, 1 day autonomy, 150 Ah / 51.2 V units
  let lithium_ion_ah_demand := (adjusted_energy_demand_kwh * 1000) / 48
  let lithium_ion_ah_demand_adjusted := lithium_ion_ah_demand / 1 * 1
  let lithium_ion_batteries_series : ℤ := Int.ceil ((48 : ℚ) / (256/5))
  let lithium_ion_battery_bank_ah :=
    lithium_ion_ah_demand_adjusted / (lithium_ion_batteries_series : ℚ)
  let lithium_ion_batteries_parallel : ℤ :=
    Int.ceil (lithium_ion_battery_bank_ah / 150)
  let lithium_ion_batteries_required :=
    lithium_ion_batteries_series * lithium_ion_batteries_parallel
  let lithium_ion_battery_capacity_kwh :=
    ((lithium_ion_batteries_required : ℚ) * 150 * (256/5)) / 1000
  -- chemistry selection; for a pure system everything selected is zeroed
  let battery_capacity_kwh :=
    if bt = "lead_acid" then
      (if system_type = "hybrid" then lead_acid_battery_capacity_kwh else 0)
    else
      (if system_type = "hybrid" then lithium_ion_battery_capacity_kwh else 0)
  let la_required : ℤ :=
    if bt = "lead_acid" then lead_acid_batteries_required else 0
  let la_series : ℤ :=
    if bt = "lead_acid" then lead_acid_batteries_series else 0
  let la_parallel : ℤ :=
    if bt = "lead_acid" then lead_acid_batteries_parallel else 0
  let li_required : ℤ :=
    if bt = "lead_acid" then 0 else lithium_ion_batteries_required
  let li_series : ℤ :=
    if bt = "lead_acid" then 0 else lithium_ion_batteries_series
  let li_parallel : ℤ :=
    if bt = "lead_acid" then 0 else lithium_ion_batteries_parallel
  -- inverter sizing
  let adjusted_power_demand_w := power_demand_w / (9/10)
  let inverters_required : ℤ := Int.ceil (adjusted_power_demand_w / 5000)
  let inverter_capacity_kw := ((inverters_required : ℚ) * 5000) / 1000
  -- panel sizing
  let adjusted_energy_for_panels_wh := (load_demand_kwh * 1000) / (19/20)
  let required_power_w := (adjusted_energy_for_panels_wh / p) * (173/100)
  let panels_required : ℤ := Int.ceil (required_power_w / 545)
  let panel_capacity_kw := ((panels_required : ℚ) * 545) / 1000
  -- energy output and excess
  let daily_output_kwh := panel_capacity_kw * p
  let excess_kwh :=
    if daily_output_kwh > load_demand_kwh
    then daily_output_kwh - load_demand_kwh else 0
  -- costs
  let panel_cost_ksh := panel_capacity_kw * 25000
  let battery_cost_ksh := battery_capacity_kwh * 5000
  let inverter_cost_ksh := inverter_capacity_kw * 12000
  let installation_cost_ksh : ℚ := 35000
  let total_cost_ksh :=
    panel_cost_ksh + battery_cost_ksh + inverter_cost_ksh +
    installation_cost_ksh
  -- ROI; none stands for the Python float("inf")
  let annual_savings_ksh := excess_kwh * 365 * 20
  let roi_years : Option ℚ :=
    if annual_savings_ksh > 0 then some (total_cost_ksh / annual_savings_ksh)
    else none
  { load_demand_kwh := load_demand_kwh
    power_demand_w := power_demand_w
    adjusted_energy_demand_kwh := adjusted_energy_demand_kwh
    lead_acid_ah_demand := lead_acid_ah_demand_adjusted
    lithium_ion_ah_demand := lithium_ion_ah_demand_adjusted
    panel_capacity_kw := panel_capacity_kw
    battery_capacity_kwh := battery_capacity_kwh
    inverter_capacity_kw := inverter_capacity_kw
    daily_output_kwh := daily_output_kwh
    excess_kwh := excess_kwh
    panel_cost_ksh := panel_cost_ksh
    battery_cost_ksh := battery_cost_ksh
    inverter_cost_ksh := inverter_cost_ksh
    installation_cost_ksh := installation_cost_ksh
    total_cost_ksh := total_cost_ksh
    roi_years := roi_years
    system_efficiency := 85/100
    peak_sun_hours := p
    panels_required := panels_required
    lead_acid_batteries_required :=
      if system_type = "hybrid" then la_required else 0
    lithium_ion_batteries_required :=
      if system_type = "hybrid" then li_required else 0
    inverters_required := inverters_required
    lead_acid_batteries_series :=
      if system_type = "hybrid" then la_series else 0
    lead_acid_batteries_parallel :=
      if system_type = "hybrid" then la_parallel else 0
    lithium_ion_batteries_series :=
      if system_type = "hybrid" then li_series else 0
    lithium_ion_batteries_parallel :=
      if system_type = "hybrid" then li_parallel else 0
    battery_type := bt }

/-- The TypeError Python raises when a call to calculate_sizing
omits the required battery_type parameter. -/
def SIZING_TYPEERROR : String :=
  "TypeError: calculate_sizing missing required argument battery_type"

/-- calculate_sizing from sizing_service.py.  battery_type is an
Option because Python binds the required parameter before the body
runs: a call omitting it (as sizing_agent does) raises TypeError at
the call site, modelled by the none branch.  get_peak_sun_hours is
the injected weather collaborator.  The explicit zero test on the
fetched value models the Python ZeroDivisionError raised at the
panel-sizing division. -/
def calculate_sizing (system_type : String) (appliances : List Appliance)
    (position : Position) (battery_type : Option String)
    (get_peak_sun_hours : ℚ → ℚ → Except String ℚ) :
    Except String SizingResult :=
  match battery_type with
  | none => .error SIZING_TYPEERROR
  | some bt =>
    if ¬(system_type = "pure" ∨ system_type = "hybrid") then
      .error "Invalid system_type"
    else if ¬(bt = "lead_acid" ∨ bt = "lithium_ion") then
      .error "Invalid battery_type"
    else if ¬(position.lat.isSome ∧ position.lon.isSome) then
      .error "Position must contain lat and lon keys"
    else if appliances.isEmpty then
      .error "Appliances must be a non-empty list"
    else
      match applianceTotals appliances with
      | .error e => .error e
      | .ok (total_power_w, total_energy_wh) =>
        match get_peak_sun_hours (position.lat.getD 0) (position.lon.getD 0) with
        | .error e => .error e
        | .ok p =>
          if p = 0 then .error "ZeroDivisionError"
          else .ok (mkSizing system_type bt total_power_w total_energy_wh p)

/-- Spec-side per-appliance wattage: power_w when present, else the
default-wattage table entry for the lower-cased name (the fallback 0
is never reached on a validated list). -/
def powerOf (a : Appliance) : ℚ :=
  match a.power_w with
  | some p => p
  | none => (lookupRating (pyLower (a.name.getD ""))).getD 0

/-- Spec-side per-appliance daily energy in Wh:
power_w × quantity × runtime_hrs. -/
def energyOf (a : Appliance) : ℚ :=
  powerOf a * a.quantity.getD 0 * a.runtime_hrs.getD 0

/-- Spec-side per-appliance power draw in W: power_w × quantity. -/
def powerDrawOf (a : Appliance) : ℚ :=
  powerOf a * a.quantity.getD 0

/-! ## Job state (core/state.py) -/

/-- The slice of the JobState TypedDict the verified agents read or
write.  The flattened sizing-output keys written by
state.update(sizing_result) are modelled by the aggregate sizing
field. -/
structure JState where
  job_id : Option String := none
  description : Option String := none
  priority : Option String := none
  system_type : Option String := none
  battery_type : Option String := none
  appliances : Option (List Appliance) := none
  technician_id : Option String := none
  scheduled_start : Option String := none
  position : Option Position := none
  last_weather_check : Option String := none
  last_peak_sun_hours : Option ℚ := none
  peak_sun_hours : Option ℚ := none
  sizing : Option SizingResult := none
  messages : List Msg := []
deriving DecidableEq

/-- Python truthiness of the optional position dict: a present dict
is truthy when it has at least one key. -/
def truthyPos : Option Position → Bool
  | none => false
  | some p => p.lat.isSome || p.lon.isSome

/-! ## Sizing agent (agents/sizing_agent.py) -/

/-- The validation guard of sizing_agent (source line 24). -/
def sizingAgentValid (s : JState) : Bool :=
  truthyStr s.system_type && truthyList s.appliances &&
  truthyPos s.position && truthyStr s.job_id

/-- sizing_agent.  The database is injected as the list of job ids
present (the agent only tests presence) together with the outcome of
the commit-and-broadcast step; the weather collaborator is passed
through to the sizing engine.  The call to calculate_sizing passes
battery_type as none because the source call site omits that
required argument. -/
def sizing_agent (state : JState) (db_jobs : List String)
    (db_write : Except String Unit)
    (get_peak_sun_hours : ℚ → ℚ → Except String ℚ) : JState :=
  if ¬sizingAgentValid state then
    { state with messages := state.messages ++
        [⟨"sizing_agent",
          "Skipping sizing: missing required fields (system_type, appliances, position, or job_id)"⟩] }
  else
    match calculate_sizing (state.system_type.getD "")
        (state.appliances.getD []) (state.position.getD ⟨none, none⟩)
        none get_peak_sun_hours with
    | .error e =>
      { state with messages := state.messages ++
          [⟨"sizing_agent", "Sizing calculation failed: " ++ e⟩] }
    | .ok r =>
      -- state.update(sizing_result)
      let state1 := { state with
                      sizing := some r,
                      peak_sun_hours := some r.peak_sun_hours,
                      battery_type := some r.battery_type }
      if (state.job_id.getD "") ∈ db_jobs then
        match db_write with
        | .error e =>
          { state1 with messages := state1.messages ++
              [⟨"sizing_agent", "Database update failed: " ++ e⟩] }
        | .ok _ =>
          { state1 with messages := state1.messages ++
              [⟨"sizing_agent",
                "Sizing completed for job " ++ state.job_id.getD ""⟩] }
      else
        { state1 with messages := state1.messages ++
            [⟨"sizing_agent",
              "Job " ++ state.job_id.getD "" ++ " not found in database"⟩] }

/-! ## Supervisor (agents/supervisor_agent.py) -/

/-- supervisor_agent: pure routing decision.  Returns the next node
name together with the (possibly message-extended) state, since the
empty-log branch appends an entry before returning END. -/
def supervisor_agent (state : JState) : String × JState :=
  if state.messages.isEmpty then
    ("END", { state with messages := state.messages ++
        [⟨"supervisor_agent", "No messages in state, ending workflow"⟩] })
  else if state.messages.any (fun m => strIn "triggering re-sizing" m.message) then
    ("sizing_agent", state)
  else if state.priority = some "high" ∧
      ¬state.messages.any (fun m => strIn "SMS sent" m.message) then
    ("notification_agent", state)
  else
    let last := state.messages.getLastD ⟨"", ""⟩
    if last.agent = "job_creator" ∧ strIn "created" last.message then
      ("sizing_agent", state)
    else if last.agent = "sizing_agent" ∧ strIn "Sizing completed" last.message then
      ("ai_prediction_agent", state)
    else if last.agent = "ai_prediction_agent" ∧
        strIn "AI predictions completed" last.message then
      ("technician_assignment_agent", state)
    else if last.agent = "technician_assignment_agent" ∧
        strIn "assigned" last.message then
      ("notification_agent", state)
    else if last.agent = "notification_agent" ∧
        (strIn "SMS sent" last.message ∨ strIn "Max retries reached" last.message) then
      ("weather_update_agent", state)
    else if last.agent = "weather_update_agent" then
      (if strIn "triggering re-sizing" last.message then "sizing_agent" else "END",
       state)
    else
      ("END", state)

/-- The fixed last-entry routing table as the specification states it
(spec 4.4 rule 4); job-creation success → Sizing, Sizing success →
Triage, Triage success → Technician-assignment, Technician-assignment
success → Notification, Notification success-or-exhausted →
Weather-check, Weather-check non-trigger and every unmatched
combination → TERMINAL ("END"). -/
def routeTable (last : Msg) : String :=
  if last.agent = "job_creator" ∧ strIn "created" last.message then
    "sizing_agent"
  else if last.agent = "sizing_agent" ∧ strIn "Sizing completed" last.message then
    "ai_prediction_agent"
  else if last.agent = "ai_prediction_agent" ∧
      strIn "AI predictions completed" last.message then
    "technician_assignment_agent"
  else if last.agent = "technician_assignment_agent" ∧
      strIn "assigned" last.message then
    "notification_agent"
  else if last.agent = "notification_agent" ∧
      (strIn "SMS sent" last.message ∨ strIn "Max retries reached" last.message) then
    "weather_update_agent"
  else
    "END"

/-! ## Weather-check agent (agents/weather_update_agent.py) -/

/-- The validation guard of weather_update_agent (source line 23). -/
def weatherAgentValid (s : JState) : Bool :=
  truthyPos s.position && (s.position.getD ⟨none, none⟩).lat.isSome &&
  (s.position.getD ⟨none, none⟩).lon.isSome && truthyStr s.job_id

/-- Post-rate-limit phase of weather_update_agent: fetch, update the
check timestamp, compare against the last known peak-sun-hours.
pre carries the invalid-timestamp-format entry appended on a parse
failure that the source then falls through from. -/
def weatherCore (state : JState) (pre : List Msg) (nowIso : String)
    (get_peak_sun_hours : ℚ → ℚ → Except String ℚ) : JState :=
  let pos := state.position.getD ⟨none, none⟩
  match get_peak_sun_hours (pos.lat.getD 0) (pos.lon.getD 0) with
  | .error e =>
    { state with messages := state.messages ++ pre ++
        [⟨"weather_update_agent", "Failed to fetch weather data: " ++ e⟩] }
  | .ok cur =>
    let state1 := { state with last_weather_check := some nowIso }
    match state.last_peak_sun_hours with
    | none =>
      { state1 with
        last_peak_sun_hours := some cur,
        messages := state.messages ++ pre ++
          [⟨"weather_update_agent",
            "Initial weather check: peak_sun_hours = " ++ ratRepr cur⟩] }
    | some lp =>
      let change_percentage := if lp ≠ 0 then |cur - lp| / lp * 100 else 100
      if change_percentage > 5 then
        { state1 with
          peak_sun_hours := some cur,
          last_peak_sun_hours := some cur,
          messages := state.messages ++ pre ++
            [⟨"weather_update_agent",
              "peak_sun_hours changed by " ++ ratRepr change_percentage ++
              "% to " ++ ratRepr cur ++ ", triggering re-sizing"⟩] }
      else
        { state1 with messages := state.messages ++ pre ++
            [⟨"weather_update_agent",
              "peak_sun_hours unchanged: " ++ ratRepr cur⟩] }

/-- weather_update_agent.  Time is injected: now is the current clock
in minutes, parseIso parses a stored timestamp (none models the
ValueError branch, which appends an entry and falls through), nowIso
is the rendering of now stored back into the state. -/
def weather_update_agent (state : JState) (now : ℤ)
    (parseIso : String → Option ℤ) (nowIso : String)
    (get_peak_sun_hours : ℚ → ℚ → Except String ℚ) : JState :=
  if ¬weatherAgentValid state then
    { state with messages := state.messages ++
        [⟨"weather_update_agent",
          "Skipping weather update: missing position or job_id"⟩] }
  else
    match state.last_weather_check with
    | none => weatherCore state [] nowIso get_peak_sun_hours
    | some lc =>
      match parseIso lc with
      | some t =>
        if now - t < 30 then
          { state with messages := state.messages ++
              [⟨"weather_update_agent", "Skipping weather update: too soon"⟩] }
        else
          weatherCore state [] nowIso get_peak_sun_hours
      | none =>
        weatherCore state
          [⟨"weather_update_agent", "Invalid last_weather_check format"⟩]
          nowIso get_peak_sun_hours

/-! ## Notification agent (agents/notification_agent.py) -/

/-- A technician's user record as the notification agent reads it. -/
structure DbUser where
  id : String
  phone : Option String
deriving DecidableEq

/-- The SMS retry loop (source lines 49-62).  fuel counts the
attempts still available out of max_retries = 3; send gives the
injected outcome of each attempt.  Returns the entries the loop
appends. -/
def smsTry (jid : String) (send : Nat → Except String Unit) :
    Nat → Nat → List Msg
  | 0, _ => []
  | fuel + 1, attempt =>
    match send attempt with
    | .ok _ => [⟨"notification_agent", "SMS sent for job " ++ jid⟩]
    | .error e =>
      let failEntry : Msg :=
        ⟨"notification_agent",
         "SMS attempt " ++ natRepr (attempt + 1) ++ " failed: " ++ e⟩
      if fuel = 0 then
        [failEntry, ⟨"notification_agent", "Max retries reached, SMS failed"⟩]
      else
        failEntry :: smsTry jid send fuel (attempt + 1)

/-- notification_agent.  The database is injected as the list of job
ids present and the user table; send is the injected SMS collaborator
outcome per attempt. -/
def notification_agent (state : JState) (db_jobs : List String)
    (users : List DbUser) (send : Nat → Except String Unit) : JState :=
  if ¬(truthyStr state.technician_id && truthyStr state.job_id) then
    { state with messages := state.messages ++
        [⟨"notification_agent",
          "Skipping notification: missing technician_id or job_id"⟩] }
  else if ¬((state.job_id.getD "") ∈ db_jobs) then
    { state with messages := state.messages ++
        [⟨"notification_agent",
          "Job " ++ state.job_id.getD "" ++ " not found in database"⟩] }
  else
    match (users.find? (fun u => u.id = state.technician_id.getD "")) with
    | none =>
      { state with messages := state.messages ++
          [⟨"notification_agent",
            "Technician " ++ state.technician_id.getD "" ++
            " has no phone number"⟩] }
    | some u =>
      if ¬truthyStr u.phone then
        { state with messages := state.messages ++
            [⟨"notification_agent",
              "Technician " ++ state.technician_id.getD "" ++
              " has no phone number"⟩] }
      else
        { state with messages :=
            state.messages ++ smsTry (state.job_id.getD "") send 3 0 }

/-! ## Triage predictor (services/ai_service.py) -/

/-- A technician roster row as the predictor filters it. -/
structure Technician where
  id : String
  skills : String
deriving DecidableEq

/-- The prediction dict of predict_job_details. -/
structure Prediction where
  priority : String
  duration_hours : ℚ
  labor_ksh : ℚ
  transport_ksh : ℚ
  technician_id : Option String
  diagnosis : String
deriving DecidableEq

/-- The try-block body of predict_job_details.  The database session
defaults to None in the source; the none branch models the
AttributeError its use then raises.  The roster query orders
randomly in the source; the model picks the first match — no claim
depends on which matching technician is chosen. -/
def predictCore (description system_type : String)
    (battery_type : Option String)
    (battery_cost_ksh panel_cost_ksh inverter_cost_ksh : ℚ)
    (db : Option (List Technician)) : Except String Prediction :=
  let is_offline := strIn "offline" (pyLower description)
  let priority :=
    if is_offline then "high"
    else if strIn "maintenance" (pyLower description) then "medium"
    else "low"
  let base_duration : ℚ := if system_type = "hybrid" then 6 else 4
  let duration_with_outage :=
    if is_offline then base_duration + 2 else base_duration
  let duration_hours :=
    if battery_type = some "lithium_ion" then duration_with_outage * (9/10)
    else if battery_type = some "lead_acid" then duration_with_outage * (11/10)
    else duration_with_outage
  let total_equipment_cost_ksh :=
    battery_cost_ksh + panel_cost_ksh + inverter_cost_ksh
  let labor_cost_factor := 1 + total_equipment_cost_ksh / 100000
  let labor_ksh := duration_hours * 1000 * min labor_cost_factor 2
  let base_transport_ksh : ℚ := if is_offline then 1200 else 800
  let transport_cost_factor := 1 + total_equipment_cost_ksh / 200000
  let transport_ksh := base_transport_ksh * min transport_cost_factor (3/2)
  let required_skill :=
    match battery_type with
    | some bt => if bt = "" then system_type else system_type ++ " " ++ bt
    | none => system_type
  match db with
  | none => .error "AttributeError: NoneType object has no attribute query"
  | some roster =>
    let tech := roster.find?
      (fun t => strIn (pyLower required_skill) (pyLower t.skills))
    let technician_id := tech.map (fun t => t.id)
    let diagnosis0 :=
      if is_offline then "Check inverter wiring"
      else if strIn "maintenance" (pyLower description) then
        "Routine maintenance check"
      else "System inspection"
    let diagnosis :=
      if battery_type = some "lead_acid" then
        diagnosis0 ++ "; inspect Lead Acid battery connections"
      else if battery_type = some "lithium_ion" then
        diagnosis0 ++ "; verify Lithium-Ion battery management system"
      else diagnosis0
    .ok ⟨priority, duration_hours, labor_ksh, transport_ksh,
         technician_id, diagnosis⟩

/-- The fixed fallback prediction of the except-branch. -/
def FALLBACK_PREDICTION : Prediction :=
  ⟨"medium", 4, 4000, 800, none, "System inspection"⟩

/-- predict_job_details: the try body with every internal failure
caught and replaced by the fixed fallback. -/
def predict_job_details (description system_type : String)
    (battery_type : Option String)
    (battery_cost_ksh panel_cost_ksh inverter_cost_ksh : ℚ)
    (db : Option (List Technician)) : Prediction :=
  match predictCore description system_type battery_type
      battery_cost_ksh panel_cost_ksh inverter_cost_ksh db with
  | .ok p => p
  | .error _ => FALLBACK_PREDICTION

/-! ## Lemmas about the string model -/

lemma listHasPre_refl : ∀ l : List Char, listHasPre l l = true
  | [] => rfl
  | a :: as => by simp [listHasPre, listHasPre_refl as]

lemma listHasSub_self (l : List Char) : listHasSub l l = true := by
  cases l with
  | nil => rfl
  | cons a as => simp [listHasSub, listHasPre_refl]

lemma listHasSub_append_left (pat l2 : List Char) :
    ∀ l1, listHasSub pat l2 = true → listHasSub pat (l1 ++ l2) = true
  | [], h => h
  | c :: l1, h => by
    simp only [List.cons_append, listHasSub, Bool.or_eq_true]
    exact Or.inr (listHasSub_append_left pat l2 l1 h)

lemma strIn_append_right (pat a b : String) (h : strIn pat b = true) :
    strIn pat (a ++ b) = true := by
  simp only [strIn, String.data_append]
  exact listHasSub_append_left _ _ _ h

lemma mem_of_listHasPre :
    ∀ {pat l : List Char}, listHasPre pat l = true → ∀ c ∈ pat, c ∈ l := by
  intro pat
  induction pat with
  | nil => intro l _ c hc; exact absurd hc (List.not_mem_nil c)
  | cons a as ih =>
    intro l h c hc
    cases l with
    | nil => exact absurd h (by simp [listHasPre])
    | cons b bs =>
      simp only [listHasPre] at h
      split at h
      case isTrue hab =>
        rcases List.mem_cons.mp hc with hca | hcas
        case inl => exact List.mem_cons.mpr (Or.inl (hca.trans hab))
        case inr => exact List.mem_cons.mpr (Or.inr (ih h c hcas))
      case isFalse => exact absurd h (by simp)

lemma mem_of_listHasSub :
    ∀ {pat : List Char} (l), listHasSub pat l = true → ∀ c ∈ pat, c ∈ l := by
  intro pat l
  induction l with
  | nil =>
    intro h c hc
    cases pat with
    | nil => exact absurd hc (List.not_mem_nil c)
    | cons a as => exact absurd h (by simp [listHasSub, listHasPre])
  | cons b bs ih =>
    intro h c hc
    simp only [listHasSub, Bool.or_eq_true] at h
    rcases h with h | h
    case inl => exact mem_of_listHasPre h c hc
    case inr => exact List.mem_cons.mpr (Or.inr (ih h c hc))

lemma mem_of_strIn {pat s : String} (h : strIn pat s = true) :
    ∀ c ∈ pat.data, c ∈ s.data :=
  mem_of_listHasSub s.data h

lemma natCharsAux_mem :
    ∀ (fuel n : Nat), ∀ c ∈ natCharsAux fuel n, c ∈ "0123456789".data := by
  intro fuel
  induction fuel with
  | zero => intro n c hc; exact absurd hc (List.not_mem_nil c)
  | succ f ih =>
    intro n c hc
    simp only [natCharsAux] at hc
    split at hc
    case isTrue => exact absurd hc (List.not_mem_nil c)
    case isFalse =>
      rcases List.mem_append.mp hc with h | h
      case inl => exact ih _ c h
      case inr =>
        have hd : c = Char.ofNat (48 + n % 10) := List.mem_singleton.mp h
        have h10 : n % 10 < 10 := Nat.mod_lt _ (by norm_num)
        subst hd
        interval_cases h : n % 10 <;> decide

lemma natRepr_mem (n : Nat) : ∀ c ∈ (natRepr n).data, c ∈ "0123456789".data := by
  intro c hc
  simp only [natRepr] at hc
  split at hc
  case isTrue => exact (by decide : ∀ x ∈ "0".data, x ∈ "0123456789".data) c hc
  case isFalse => exact natCharsAux_mem _ _ c hc

lemma digit_mem_ratChars : ∀ c ∈ ("0123456789".data), c ∈ "-/0123456789".data := by
  intro c hc; fin_cases hc <;> decide

lemma intRepr_mem (i : ℤ) : ∀ c ∈ (intRepr i).data, c ∈ "-/0123456789".data := by
  intro c hc
  simp only [intRepr] at hc
  split at hc
  case isTrue =>
    rw [String.data_append] at hc
    rcases List.mem_append.mp hc with h | h
    case inl => fin_cases h <;> decide
    case inr => exact digit_mem_ratChars c (natRepr_mem _ c h)
  case isFalse => exact digit_mem_ratChars c (natRepr_mem _ c hc)

lemma ratRepr_mem (q : ℚ) : ∀ c ∈ (ratRepr q).data, c ∈ "-/0123456789".data := by
  intro c hc
  simp only [ratRepr, String.data_append] at hc
  rcases List.mem_append.mp hc with h | h
  case inl =>
    rcases List.mem_append.mp h with h2 | h2
    case inl => exact intRepr_mem _ c h2
    case inr => fin_cases h2 <;> decide
  case inr => exact digit_mem_ratChars c (natRepr_mem _ c h)

/-- The non-trigger log entry of the weather agent never contains the
re-sizing trigger phrase: the fixed prefix has no letter t and the
interpolated number renders to sign, slash and digit characters. -/
lemma trigger_not_in_unchanged (cur : ℚ) :
    strIn "triggering re-sizing"
      ("peak_sun_hours unchanged: " ++ ratRepr cur) = false := by
  by_contra hne
  simp only [Bool.not_eq_false] at hne
  have ht : ('t' : Char) ∈ ("peak_sun_hours unchanged: " ++ ratRepr cur).data :=
    mem_of_strIn hne 't' (by decide)
  rw [String.data_append] at ht
  rcases List.mem_append.mp ht with h | h
  case inl => exact absurd h (by decide)
  case inr => exact absurd (ratRepr_mem cur 't' h) (by decide)

lemma getLastD_mem {α : Type} (l : List α) (d : α) (h : l ≠ []) :
    l.getLastD d ∈ l := by
  induction l with
  | nil => exact absurd rfl h
  | cons a as ih =>
    cases as with
    | nil => simp [List.getLastD]
    | cons b bs =>
      have : (a :: b :: bs).getLastD d = (b :: bs).getLastD d := by
        simp [List.getLastD]
      rw [this]
      exact List.mem_cons.mpr (Or.inr (ih (by simp)))

lemma getLastD_append_singleton {α : Type} (l : List α) (m d : α) :
    (l ++ [m]).getLastD d = m := by
  induction l with
  | nil => rfl
  | cons a as ih => simpa [List.getLastD] using ih

/-! ## Supervisor routing claims -/

/-- C4: for every non-empty event log and every job state, a log
entry containing the re-sizing trigger phrase makes the Supervisor
return the Sizing node, regardless of the last entry, the priority
and any notification entries — the weather-loop rule precedes the
high-priority rule and the last-entry table. -/
theorem supervisor_trigger_overrides (s : JState) (hne : s.messages ≠ [])
    (m : Msg) (hm : m ∈ s.messages)
    (ht : strIn "triggering re-sizing" m.message = true) :
    (supervisor_agent s).1 = "sizing_agent" := by
  have hempty : s.messages.isEmpty = false := by
    simp [List.isEmpty_iff, hne]
  have hany : s.messages.any (fun x => strIn "triggering re-sizing" x.message)
      = true := List.any_eq_true.mpr ⟨m, hm, ht⟩
  simp [supervisor_agent, hempty, hany]

/-- Closed witness for C4: a state whose first entry carries the
trigger phrase, with high priority, no notification entry, and a
different last entry, still routes to sizing_agent. -/
theorem supervisor_trigger_overrides_witness :
    (supervisor_agent {
        priority := some "high",
        messages := [⟨"weather_update_agent",
            "peak_sun_hours changed by 6.00% to 5.3, triggering re-sizing"⟩,
          ⟨"job_creator", "Job j1 created"⟩] }).1 = "sizing_agent" :=
  supervisor_trigger_overrides _ (by decide)
    ⟨"weather_update_agent",
      "peak_sun_hours changed by 6.00% to 5.3, triggering re-sizing"⟩
    (by decide) (by decide)

/-- C5: with a non-empty log, no trigger entry anywhere, and the
high-priority rule not applicable, the Supervisor result is exactly
the fixed last-entry table (unmatched combinations give END, never
an exception — the routing function is total) and the state is
returned unchanged. -/
theorem supervisor_default_table (s : JState)
    (hne : s.messages ≠ [])
    (hnt : ∀ m ∈ s.messages, strIn "triggering re-sizing" m.message = false)
    (hhp : ¬(s.priority = some "high" ∧
             ∀ m ∈ s.messages, strIn "SMS sent" m.message = false)) :
    supervisor_agent s = (routeTable (s.messages.getLastD ⟨"", ""⟩), s) := by
  have hempty : s.messages.isEmpty = false := by
    simp [List.isEmpty_iff, hne]
  have hany : s.messages.any (fun x => strIn "triggering re-sizing" x.message)
      = false := by
    rw [List.any_eq_false]
    intro m hm
    simp [hnt m hm]
  have hhp2 : ¬(s.priority = some "high" ∧
      ¬s.messages.any (fun x => strIn "SMS sent" x.message) = true) := by
    rintro ⟨h1, h2⟩
    refine hhp ⟨h1, ?_⟩
    intro m hm
    have := (List.any_eq_false (p := fun x => strIn "SMS sent" x.message)
      (l := s.messages)).mp (Bool.not_eq_true _ ▸ Bool.of_not_eq_true h2) m hm
    simpa using this
  have hlastmem : s.messages.getLastD ⟨"", ""⟩ ∈ s.messages :=
    getLastD_mem _ _ hne
  have hlasttrig :
      strIn "triggering re-sizing" (s.messages.getLastD ⟨"", ""⟩).message
        = false := hnt _ hlastmem
  unfold supervisor_agent routeTable
  rw [if_neg (by simp [hempty]), if_neg (by simp [hany]), if_neg hhp2]
  set last := s.messages.getLastD ⟨"", ""⟩ with hlast
  by_cases h1 : last.agent = "job_creator" ∧ strIn "created" last.message
  · simp [h1]
  by_cases h2 : last.agent = "sizing_agent" ∧ strIn "Sizing completed" last.message
  · simp [h1, h2]
  by_cases h3 : last.agent = "ai_prediction_agent" ∧
      strIn "AI predictions completed" last.message
  · simp [h1, h2, h3]
  by_cases h4 : last.agent = "technician_assignment_agent" ∧
      strIn "assigned" last.message
  · simp [h1, h2, h3, h4]
  by_cases h5 : last.agent = "notification_agent" ∧
      (strIn "SMS sent" last.message ∨ strIn "Max retries reached" last.message)
  · simp [h1, h2, h3, h4, h5]
  by_cases h6 : last.agent = "weather_update_agent"
  · simp [h1, h2, h3, h4, h5, h6, hlasttrig]
  · simp [h1, h2, h3, h4, h5, h6]

/-- Closed witness for C5: a low-priority state whose last entry is a
sizing success routes to the triage (AI-prediction) node, matching
the table. -/
theorem supervisor_default_table_witness :
    supervisor_agent {
        priority := some "low",
        messages := [⟨"job_creator", "Job j1 created"⟩,
          ⟨"sizing_agent", "Sizing completed for job j1"⟩] } =
      ("ai_prediction_agent",
       {
         priority := some "low",
         messages := [⟨"job_creator", "Job j1 created"⟩,
           ⟨"sizing_agent", "Sizing completed for job j1"⟩] }) :=
  supervisor_default_table _ (by decide) (by decide) (by decide)

/-! ## Sizing agent claims -/

/-- C1: the sizing agent's success path is unreachable.  The call to
calculate_sizing omits the required battery_type argument, so it
always raises TypeError; consequently (1) every state passing the
field validation gets exactly the failure log entry appended and no
sizing field written, and (2) no invocation ever appends an entry
containing the success phrase Sizing completed. -/
theorem sizing_agent_success_unreachable :
    (∀ (s : JState) (jobs : List String) (w : Except String Unit)
       (psh : ℚ → ℚ → Except String ℚ),
       sizingAgentValid s = true →
       sizing_agent s jobs w psh = { s with messages := s.messages ++
         [⟨"sizing_agent", "Sizing calculation failed: " ++ SIZING_TYPEERROR⟩] })
    ∧ (∀ (s : JState) (jobs : List String) (w : Except String Unit)
       (psh : ℚ → ℚ → Except String ℚ) (m : Msg),
       m ∈ (sizing_agent s jobs w psh).messages →
       strIn "Sizing completed" m.message = true → m ∈ s.messages) := by
  have hcalc : ∀ (st : String) (apps : List Appliance) (pos : Position)
      (psh : ℚ → ℚ → Except String ℚ),
      calculate_sizing st apps pos none psh = .error SIZING_TYPEERROR :=
    fun _ _ _ _ => rfl
  constructor
  · intro s jobs w psh hv
    simp [sizing_agent, hv, hcalc]
  · intro s jobs w psh m hm hsub
    by_cases hv : sizingAgentValid s = true
    · simp only [sizing_agent, hv, not_true_eq_false, if_false, hcalc] at hm
      rcases List.mem_append.mp hm with h | h
      · exact h
      · rw [List.mem_singleton.mp h] at hsub
        exact absurd hsub (by decide)
    · simp only [sizing_agent, if_pos hv] at hm
      rcases List.mem_append.mp hm with h | h
      · exact h
      · rw [List.mem_singleton.mp h] at hsub
        exact absurd hsub (by decide)

/-- Closed witness for C1: a fully-populated valid state comes back
with only the Sizing-calculation-failed entry appended. -/
theorem sizing_agent_success_unreachable_witness :
    sizing_agent
      { job_id := some "j1", system_type := some "hybrid",
        appliances := some [⟨some "lights", some 7, some 4, some 6⟩],
        position := some ⟨some 1, some 2⟩ }
      ["j1"] (.ok ()) (fun _ _ => .ok 5) =
    { job_id := some "j1", system_type := some "hybrid",
      appliances := some [⟨some "lights", some 7, some 4, some 6⟩],
      position := some ⟨some 1, some 2⟩,
      messages :=
        [⟨"sizing_agent", "Sizing calculation failed: " ++ SIZING_TYPEERROR⟩] } :=
  sizing_agent_success_unreachable.1 _ _ _ _ (by decide)

/-! ## Triage predictor claims -/

/-- C6: with a live technician roster, predict_job_details returns
priority high when the description contains an outage indicator
(offline, case-insensitively), else medium on a maintenance
indicator, else low; and duration equal to (base 6 for hybrid, 4 for
pure, plus 2 on outage) times the chemistry factor (0.9 lithium-ion,
1.1 lead-acid, 1 otherwise). -/
theorem predict_priority_and_duration (desc st : String) (bt : Option String)
    (bc pc ic : ℚ) (roster : List Technician)
    (hst : st = "pure" ∨ st = "hybrid") :
    (predict_job_details desc st bt bc pc ic (some roster)).priority =
      (if strIn "offline" (pyLower desc) = true then "high"
       else if strIn "maintenance" (pyLower desc) = true then "medium"
       else "low")
    ∧ (predict_job_details desc st bt bc pc ic (some roster)).duration_hours =
      ((if st = "hybrid" then (6 : ℚ) else 4) +
        (if strIn "offline" (pyLower desc) = true then 2 else 0)) *
      (if bt = some "lithium_ion" then 9/10
       else if bt = some "lead_acid" then 11/10 else 1) := by
  clear hst
  constructor
  · simp only [predict_job_details, predictCore]
  · simp only [predict_job_details, predictCore]
    split_ifs <;> ring

/-- Closed witness for C6: description GRID TIE OFFLINE on a hybrid
system with no chemistry yields priority high and duration
6 + 2 = 8 hours. -/
theorem predict_priority_and_duration_witness :
    (predict_job_details "GRID TIE OFFLINE" "hybrid" none 0 0 0 (some [])).priority
      = "high"
    ∧ (predict_job_details "GRID TIE OFFLINE" "hybrid" none 0 0 0
        (some [])).duration_hours = 8 := by
  have h := predict_priority_and_duration "GRID TIE OFFLINE" "hybrid" none 0 0 0
    [] (Or.inr rfl)
  refine ⟨?_, ?_⟩
  · rw [h.1]
    decide
  · rw [h.2]
    simp +decide
    norm_num

/-- C7: whenever the try-block body of predict_job_details fails
internally, the function returns exactly the fixed fallback
prediction (medium priority, 4 h, 4000/800 cost, no technician,
System inspection) instead of propagating the exception. -/
theorem predict_fallback_on_error (desc st : String) (bt : Option String)
    (bc pc ic : ℚ) (db : Option (List Technician)) (e : String)
    (h : predictCore desc st bt bc pc ic db = .error e) :
    predict_job_details desc st bt bc pc ic db =
      ⟨"medium", 4, 4000, 800, none, "System inspection"⟩ := by
  simp only [predict_job_details, h, FALLBACK_PREDICTION]

/-- Closed witness for C7: calling the predictor without a database
session (the source default db=None) makes the roster query raise,
and the fixed fallback prediction is returned. -/
theorem predict_fallback_on_error_witness :
    predict_job_details "GRID TIE OFFLINE" "hybrid" (some "lead_acid")
      100 200 300 none =
      ⟨"medium", 4, 4000, 800, none, "System inspection"⟩ :=
  predict_fallback_on_error "GRID TIE OFFLINE" "hybrid" (some "lead_acid")
    100 200 300 none _ rfl

/-! ## Weather-check claims -/

lemma weatherCore_fields (s : JState) (pre : List Msg) (nowIso : String)
    (psh : ℚ → ℚ → Except String ℚ) (cur lp : ℚ)
    (hfetch : psh ((s.position.getD ⟨none, none⟩).lat.getD 0)
        ((s.position.getD ⟨none, none⟩).lon.getD 0) = .ok cur)
    (hlp : s.last_peak_sun_hours = some lp) (hlp0 : lp ≠ 0) :
    (|cur - lp| / lp * 100 > 5 →
      (weatherCore s pre nowIso psh).peak_sun_hours = some cur ∧
      (weatherCore s pre nowIso psh).last_peak_sun_hours = some cur ∧
      strIn "triggering re-sizing"
        (((weatherCore s pre nowIso psh).messages.getLastD ⟨"", ""⟩).message)
        = true)
    ∧ (|cur - lp| / lp * 100 ≤ 5 →
      (weatherCore s pre nowIso psh).peak_sun_hours = s.peak_sun_hours ∧
      (weatherCore s pre nowIso psh).last_peak_sun_hours =
        s.last_peak_sun_hours ∧
      strIn "triggering re-sizing"
        (((weatherCore s pre nowIso psh).messages.getLastD ⟨"", ""⟩).message)
        = false) := by
  have hchange : (if lp ≠ 0 then |cur - lp| / lp * 100 else 100)
      = |cur - lp| / lp * 100 := if_pos hlp0
  constructor
  · intro hgt
    have hcore : weatherCore s pre nowIso psh =
        { s with
          last_weather_check := some nowIso,
          peak_sun_hours := some cur,
          last_peak_sun_hours := some cur,
          messages := s.messages ++ pre ++
            [⟨"weather_update_agent",
              "peak_sun_hours changed by " ++ ratRepr (|cur - lp| / lp * 100) ++
              "% to " ++ ratRepr cur ++ ", triggering re-sizing"⟩] } := by
      simp only [weatherCore, hfetch, hlp, hchange, if_pos hgt]
    refine ⟨by rw [hcore], by rw [hcore], ?_⟩
    rw [hcore]
    show strIn _ ((((s.messages ++ pre) ++ _).getLastD ⟨"", ""⟩).message) = true
    rw [getLastD_append_singleton]
    exact strIn_append_right _ _ _ (by decide)
  · intro hle
    have hngt : ¬(|cur - lp| / lp * 100 > 5) := not_lt.mpr hle
    have hcore : weatherCore s pre nowIso psh =
        { s with
          last_weather_check := some nowIso,
          messages := s.messages ++ pre ++
            [⟨"weather_update_agent",
              "peak_sun_hours unchanged: " ++ ratRepr cur⟩] } := by
      simp only [weatherCore, hfetch, hlp, hchange, if_neg hngt]
    refine ⟨by rw [hcore], by rw [hcore, hlp], ?_⟩
    rw [hcore]
    show strIn _ ((((s.messages ++ pre) ++ _).getLastD ⟨"", ""⟩).message) = false
    rw [getLastD_append_singleton]
    exact trigger_not_in_unchanged cur

/-- C9: when the weather agent passes validation, is not skipped by
the 30-minute rate limit, fetches the current peak-sun-hours, and
has a nonzero last known value: a percentage change above 5 updates
peak_sun_hours and last_peak_sun_hours and appends an entry bearing
the re-sizing trigger phrase, while a change of 5% or less leaves
both fields unchanged and appends a non-trigger entry. -/
theorem weather_change_threshold (s : JState) (now : ℤ)
    (parseIso : String → Option ℤ) (nowIso : String)
    (psh : ℚ → ℚ → Except String ℚ) (cur lp : ℚ)
    (hv : weatherAgentValid s = true)
    (hrl : ∀ lc, s.last_weather_check = some lc →
      ∀ t, parseIso lc = some t → ¬(now - t < 30))
    (hfetch : psh ((s.position.getD ⟨none, none⟩).lat.getD 0)
        ((s.position.getD ⟨none, none⟩).lon.getD 0) = .ok cur)
    (hlp : s.last_peak_sun_hours = some lp) (hlp0 : lp ≠ 0) :
    (|cur - lp| / lp * 100 > 5 →
      (weather_update_agent s now parseIso nowIso psh).peak_sun_hours
          = some cur ∧
      (weather_update_agent s now parseIso nowIso psh).last_peak_sun_hours
          = some cur ∧
      strIn "triggering re-sizing"
        (((weather_update_agent s now parseIso nowIso
            psh).messages.getLastD ⟨"", ""⟩).message) = true)
    ∧ (|cur - lp| / lp * 100 ≤ 5 →
      (weather_update_agent s now parseIso nowIso psh).peak_sun_hours
          = s.peak_sun_hours ∧
      (weather_update_agent s now parseIso nowIso psh).last_peak_sun_hours
          = s.last_peak_sun_hours ∧
      strIn "triggering re-sizing"
        (((weather_update_agent s now parseIso nowIso
            psh).messages.getLastD ⟨"", ""⟩).message) = false) := by
  have hred : weather_update_agent s now parseIso nowIso psh =
      weatherCore s [] nowIso psh ∨
      weather_update_agent s now parseIso nowIso psh =
      weatherCore s [⟨"weather_update_agent",
        "Invalid last_weather_check format"⟩] nowIso psh := by
    unfold weather_update_agent
    rw [if_neg (by simp [hv])]
    split
    next => exact Or.inl rfl
    next lc hlc =>
      split
      next t hpi =>
        rw [if_neg (hrl lc hlc t hpi)]
        exact Or.inl rfl
      next hpi => exact Or.inr rfl
  rcases hred with hred | hred
  · rw [hred]
    exact weatherCore_fields s [] nowIso psh cur lp hfetch hlp hlp0
  · rw [hred]
    exact weatherCore_fields s _ nowIso psh cur lp hfetch hlp hlp0

/-- Closed witness for C9: last known value 5.0, fetched value 5.3, a
6% change: peak_sun_hours is updated and the appended entry carries
the trigger phrase (and, at the same state, a fetched value of 5.1 —
a 2% change — leaves the fields unchanged with no trigger). -/
theorem weather_change_threshold_witness :
    ((weather_update_agent
        { job_id := some "j1", position := some ⟨some 1, some 2⟩,
          last_peak_sun_hours := some 5 }
        100 (fun _ => none) "now" (fun _ _ => .ok (53/10))).peak_sun_hours
      = some (53/10) ∧
     strIn "triggering re-sizing"
       (((weather_update_agent
          { job_id := some "j1", position := some ⟨some 1, some 2⟩,
            last_peak_sun_hours := some 5 }
          100 (fun _ => none) "now"
          (fun _ _ => .ok (53/10))).messages.getLastD ⟨"", ""⟩).message) = true)
    ∧ ((weather_update_agent
        { job_id := some "j1", position := some ⟨some 1, some 2⟩,
          last_peak_sun_hours := some 5 }
        100 (fun _ => none) "now" (fun _ _ => .ok (51/10))).peak_sun_hours
      = none ∧
     strIn "triggering re-sizing"
       (((weather_update_agent
          { job_id := some "j1", position := some ⟨some 1, some 2⟩,
            last_peak_sun_hours := some 5 }
          100 (fun _ => none) "now"
          (fun _ _ => .ok (51/10))).messages.getLastD ⟨"", ""⟩).message)
        = false) := by
  constructor
  · have h := (weather_change_threshold
      { job_id := some "j1", position := some ⟨some 1, some 2⟩,
        last_peak_sun_hours := some 5 }
      100 (fun _ => none) "now" (fun _ _ => .ok (53/10)) (53/10) 5
      (by decide) (by intro lc hlc; simp at hlc) rfl rfl (by norm_num)).1
      (by norm_num [abs_of_nonneg])
    exact ⟨h.1, h.2.2⟩
  · have h := (weather_change_threshold
      { job_id := some "j1", position := some ⟨some 1, some 2⟩,
        last_peak_sun_hours := some 5 }
      100 (fun _ => none) "now" (fun _ _ => .ok (51/10)) (51/10) 5
      (by decide) (by intro lc hlc; simp at hlc) rfl rfl (by norm_num)).2
      (by norm_num [abs_of_nonneg])
    exact ⟨h.1, h.2.2⟩

/-! ## Sizing engine lemmas -/

lemma exBind_ok {α β : Type} (a : α) (f : α → Except String β) :
    ((Except.ok a : Except String α) >>= f) = f a := rfl

lemma exBind_error {α β : Type} (e : String) (f : α → Except String β) :
    ((Except.error e : Except String α) >>= f) = Except.error e := rfl

lemma applianceStep_ok_val {a : Appliance} {v : ℚ × ℚ}
    (h : applianceStep a = .ok v) : v = (powerDrawOf a, energyOf a) := by
  unfold applianceStep at h
  split at h
  next nm q r hn hq hr =>
    split at h
    next p hp =>
      injection h with h
      rw [← h]
      simp [powerDrawOf, powerOf, energyOf, hn, hq, hr, hp]
    next hp =>
      split at h
      next p hl =>
        injection h with h
        rw [← h]
        simp [powerDrawOf, powerOf, energyOf, hn, hq, hr, hp, hl]
      next hl => exact absurd h (by simp)
  next => exact absurd h (by simp)

lemma applianceTotals_ok_sum : ∀ {l : List Appliance} {tp te : ℚ},
    applianceTotals l = .ok (tp, te) →
    tp = (l.map powerDrawOf).sum ∧ te = (l.map energyOf).sum := by
  intro l
  induction l with
  | nil =>
    intro tp te h
    simp only [applianceTotals, Except.ok.injEq, Prod.mk.injEq] at h
    simp [← h.1, ← h.2]
  | cons a l ih =>
    intro tp te h
    simp only [applianceTotals] at h
    cases hs : applianceStep a with
    | error e => rw [hs] at h; rw [exBind_error] at h; exact absurd h (by simp)
    | ok v =>
      obtain ⟨p, e⟩ := v
      rw [hs, exBind_ok] at h
      cases ht : applianceTotals l with
      | error e2 =>
        rw [ht] at h; rw [exBind_error] at h; exact absurd h (by simp)
      | ok w =>
        obtain ⟨tp2, te2⟩ := w
        rw [ht, exBind_ok] at h
        simp only [Except.ok.injEq, Prod.mk.injEq] at h
        obtain ⟨h1, h2⟩ := h
        have hv := applianceStep_ok_val hs
        rw [Prod.mk.injEq] at hv
        obtain ⟨hs1, hs2⟩ := hv
        obtain ⟨ht1, ht2⟩ := ih ht
        subst h1 h2
        constructor
        · simp [List.map_cons, List.sum_cons, ← ht1, hs1]
        · simp [List.map_cons, List.sum_cons, ← ht2, hs2]

lemma applianceTotals_ok_forall : ∀ {l : List Appliance} {x : ℚ × ℚ},
    applianceTotals l = .ok x → ∀ a ∈ l, ∃ v, applianceStep a = .ok v := by
  intro l
  induction l with
  | nil => intro x _ a ha; exact absurd ha (List.not_mem_nil a)
  | cons b l ih =>
    intro x h a ha
    simp only [applianceTotals] at h
    cases hs : applianceStep b with
    | error e => rw [hs, exBind_error] at h; exact absurd h (by simp)
    | ok v =>
      rw [hs, exBind_ok] at h
      obtain ⟨p, e⟩ := v
      cases ht : applianceTotals l with
      | error e2 =>
        rw [ht, exBind_error] at h; exact absurd h (by simp)
      | ok w =>
        rcases List.mem_cons.mp ha with hab | hal
        · exact ⟨(p, e), hab ▸ hs⟩
        · exact ih ht a hal

lemma applianceTotals_of_forall : ∀ {l : List Appliance},
    (∀ a ∈ l, ∃ v, applianceStep a = .ok v) →
    applianceTotals l = .ok ((l.map powerDrawOf).sum, (l.map energyOf).sum) := by
  intro l
  induction l with
  | nil => intro _; simp [applianceTotals]
  | cons a l ih =>
    intro hall
    obtain ⟨v, hv⟩ := hall a (List.mem_cons_self a l)
    have hveq := applianceStep_ok_val hv
    subst hveq
    have ht := ih (fun x hx => hall x (List.mem_cons.mpr (Or.inr hx)))
    simp only [applianceTotals, hv, ht, exBind_ok, List.map_cons,
      List.sum_cons]

lemma calculate_sizing_ok_inv {st : String} {l : List Appliance}
    {pos : Position} {bt : Option String} {psh : ℚ → ℚ → Except String ℚ}
    {r : SizingResult} (h : calculate_sizing st l pos bt psh = .ok r) :
    ∃ b tp te p, bt = some b ∧
      (st = "pure" ∨ st = "hybrid") ∧ (b = "lead_acid" ∨ b = "lithium_ion") ∧
      pos.lat.isSome ∧ pos.lon.isSome ∧ l ≠ [] ∧
      applianceTotals l = .ok (tp, te) ∧
      psh (pos.lat.getD 0) (pos.lon.getD 0) = .ok p ∧ p ≠ 0 ∧
      r = mkSizing st b tp te p := by
  cases hbt : bt with
  | none => rw [hbt] at h; exact absurd h (by simp [calculate_sizing])
  | some b =>
    rw [hbt] at h
    simp only [calculate_sizing] at h
    split_ifs at h with h1 h2 h3 h4
    split at h
    next e hta => exact absurd h (by simp)
    next tp te hta =>
      split at h
      next e hp => exact absurd h (by simp)
      next p hp =>
        split at h
        next hp0 => exact absurd h (by simp)
        next hp0 =>
          injection h with h
          refine ⟨b, tp, te, p, rfl, h1, h2, h3.1, h3.2, ?_, hta, hp, hp0,
            h.symm⟩
          intro hl
          rw [hl] at h4
          exact h4 rfl

lemma calculate_sizing_ok_mk {st b : String} {l : List Appliance}
    {pos : Position} {psh : ℚ → ℚ → Except String ℚ} {tp te p : ℚ}
    (hst : st = "pure" ∨ st = "hybrid")
    (hbt : b = "lead_acid" ∨ b = "lithium_ion")
    (hla : pos.lat.isSome) (hlo : pos.lon.isSome) (hne : l ≠ [])
    (ht : applianceTotals l = .ok (tp, te))
    (hp : psh (pos.lat.getD 0) (pos.lon.getD 0) = .ok p)
    (hp0 : p ≠ 0) :
    calculate_sizing st l pos (some b) psh = .ok (mkSizing st b tp te p) := by
  have hemp : ¬(l.isEmpty = true) := by
    cases l with
    | nil => exact absurd rfl hne
    | cons a l => simp
  simp only [calculate_sizing]
  rw [if_neg (not_not_intro hst), if_neg (not_not_intro hbt),
    if_neg (not_not_intro ⟨hla, hlo⟩), if_neg hemp]
  simp only [ht, hp]
  rw [if_neg hp0]

/-! ## Sizing engine claims -/

/-- C2: for every invocation of calculate_sizing that succeeds, the
returned load_demand_kwh is the sum over the appliances of
power_w × quantity × runtime_hrs divided by 1000 (with the
default-wattage table supplying an absent power_w), and the value is
invariant under permutation of the appliance list. -/
theorem calculate_sizing_load_demand_sum (st : String) (l : List Appliance)
    (pos : Position) (bt : Option String)
    (psh : ℚ → ℚ → Except String ℚ) (r : SizingResult)
    (h : calculate_sizing st l pos bt psh = .ok r) :
    r.load_demand_kwh = (l.map energyOf).sum / 1000
    ∧ ∀ l2, l.Perm l2 → ∃ r2, calculate_sizing st l2 pos bt psh = .ok r2 ∧
        r2.load_demand_kwh = r.load_demand_kwh := by
  obtain ⟨b, tp, te, p, hbt, hst, hbv, hla, hlo, hne, hta, hp, hp0, hr⟩ :=
    calculate_sizing_ok_inv h
  subst hr
  have hsum := applianceTotals_ok_sum hta
  have hload : (mkSizing st b tp te p).load_demand_kwh = te / 1000 := rfl
  constructor
  · rw [hload, hsum.2]
  · intro l2 hperm
    have hall : ∀ x ∈ l2, ∃ v, applianceStep x = .ok v := fun x hx =>
      applianceTotals_ok_forall hta x (hperm.mem_iff.mpr hx)
    have hta2 := applianceTotals_of_forall hall
    have hne2 : l2 ≠ [] := by
      intro h0
      subst h0
      exact hne (List.perm_nil.mp hperm)
    rw [hbt]
    refine ⟨mkSizing st b ((l2.map powerDrawOf).sum) ((l2.map energyOf).sum) p,
      calculate_sizing_ok_mk hst hbv hla hlo hne2 hta2 hp hp0, ?_⟩
    have h2 : (mkSizing st b ((l2.map powerDrawOf).sum)
        ((l2.map energyOf).sum) p).load_demand_kwh
        = (l2.map energyOf).sum / 1000 := rfl
    rw [h2, hload, hsum.2, (hperm.map energyOf).sum_eq]

/-- Closed witness for C2: the spec scenario — lights 7 W × 4 × 6 h
and fridge 300 W × 1 × 24 h on a hybrid lithium-ion system with
peak-sun-hours 5.5 — yields load_demand_kwh = 7.368. -/
theorem calculate_sizing_load_demand_sum_witness :
    ∃ r, calculate_sizing "hybrid"
        [⟨some "lights", some 7, some 4, some 6⟩,
         ⟨some "fridge", some 300, some 1, some 24⟩]
        ⟨some 1, some 2⟩ (some "lithium_ion") (fun _ _ => .ok (11/2)) = .ok r
      ∧ r.load_demand_kwh = 7368 / 1000 := by
  have h : calculate_sizing "hybrid"
      [⟨some "lights", some 7, some 4, some 6⟩,
       ⟨some "fridge", some 300, some 1, some 24⟩]
      ⟨some 1, some 2⟩ (some "lithium_ion") (fun _ _ => .ok (11/2)) =
      .ok (mkSizing "hybrid" "lithium_ion" (7 * 4 + (300 * 1 + 0))
        (7 * 4 * 6 + (300 * 1 * 24 + 0)) (11/2)) :=
    calculate_sizing_ok_mk (Or.inr rfl) (Or.inr rfl) rfl rfl
      (List.cons_ne_nil _ _) rfl rfl (by norm_num)
  refine ⟨_, h, ?_⟩
  rw [(calculate_sizing_load_demand_sum _ _ _ _ _ _ h).1]
  simp only [List.map_cons, List.map_nil, List.sum_cons, List.sum_nil,
    energyOf, powerOf, Option.getD_some]
  norm_num

/-- C3: on a pure (grid-tie) system every battery quantity and
capacity field of a successful sizing result is zero, for either
chemistry selection. -/
theorem calculate_sizing_pure_zero_batteries (l : List Appliance)
    (pos : Position) (bt : Option String) (psh : ℚ → ℚ → Except String ℚ)
    (r : SizingResult) (h : calculate_sizing "pure" l pos bt psh = .ok r) :
    r.battery_capacity_kwh = 0 ∧ r.lead_acid_batteries_required = 0 ∧
    r.lithium_ion_batteries_required = 0 ∧
    r.lead_acid_batteries_series = 0 ∧ r.lead_acid_batteries_parallel = 0 ∧
    r.lithium_ion_batteries_series = 0 ∧
    r.lithium_ion_batteries_parallel = 0 := by
  obtain ⟨b, tp, te, p, hbt, hst, hbv, hla, hlo, hne, hta, hp, hp0, hr⟩ :=
    calculate_sizing_ok_inv h
  subst hr
  simp +decide [mkSizing, ite_self]

/-- Closed witness for C3: a pure lead-acid system over a single
fridge yields zero batteries of both chemistries. -/
theorem calculate_sizing_pure_zero_batteries_witness :
    ∃ r, calculate_sizing "pure" [⟨some "fridge", some 300, some 1, some 24⟩]
        ⟨some 1, some 2⟩ (some "lead_acid") (fun _ _ => .ok 5) = .ok r
      ∧ r.battery_capacity_kwh = 0 ∧ r.lead_acid_batteries_required = 0
      ∧ r.lithium_ion_batteries_required = 0 := by
  have h : calculate_sizing "pure" [⟨some "fridge", some 300, some 1, some 24⟩]
      ⟨some 1, some 2⟩ (some "lead_acid") (fun _ _ => .ok 5) =
      .ok (mkSizing "pure" "lead_acid" (300 * 1 + 0) (300 * 1 * 24 + 0) 5) :=
    calculate_sizing_ok_mk (Or.inl rfl) (Or.inl rfl) rfl rfl
      (List.cons_ne_nil _ _) rfl rfl (by norm_num)
  have hz := calculate_sizing_pure_zero_batteries _ _ _ _ _ h
  exact ⟨_, h, hz.1, hz.2.1, hz.2.2.1⟩

lemma smsTry_ne_nil (jid : String) (send : Nat → Except String Unit) :
    ∀ (fuel attempt : Nat), fuel ≠ 0 → smsTry jid send fuel attempt ≠ [] := by
  intro fuel attempt hf
  cases fuel with
  | zero => exact absurd rfl hf
  | succ f =>
    cases hs : send attempt with
    | ok u => simp [smsTry, hs]
    | error e =>
      simp only [smsTry, hs]
      split <;> simp

lemma weatherCore_appends (s : JState) (pre : List Msg) (nowIso : String)
    (psh : ℚ → ℚ → Except String ℚ) :
    ∃ m, (weatherCore s pre nowIso psh).messages
      = s.messages ++ (pre ++ [m]) := by
  cases hf : psh ((s.position.getD ⟨none, none⟩).lat.getD 0)
      ((s.position.getD ⟨none, none⟩).lon.getD 0) with
  | error e =>
    refine ⟨⟨"weather_update_agent", "Failed to fetch weather data: " ++ e⟩, ?_⟩
    simp only [weatherCore, hf]
    rw [List.append_assoc]
  | ok cur =>
    cases hlp : s.last_peak_sun_hours with
    | none =>
      refine ⟨⟨"weather_update_agent",
        "Initial weather check: peak_sun_hours = " ++ ratRepr cur⟩, ?_⟩
      simp only [weatherCore, hf, hlp]
      rw [List.append_assoc]
    | some lp =>
      by_cases hc : (if lp ≠ 0 then |cur - lp| / lp * 100 else 100) > 5
      · refine ⟨⟨"weather_update_agent",
          "peak_sun_hours changed by " ++
          ratRepr (if lp ≠ 0 then |cur - lp| / lp * 100 else 100) ++
          "% to " ++ ratRepr cur ++ ", triggering re-sizing"⟩, ?_⟩
        simp only [weatherCore, hf, hlp, if_pos hc]
        rw [List.append_assoc]
      · refine ⟨⟨"weather_update_agent",
          "peak_sun_hours unchanged: " ++ ratRepr cur⟩, ?_⟩
        simp only [weatherCore, hf, hlp, if_neg hc]
        rw [List.append_assoc]

/-- C10 counterexample: the claim says every agent appends exactly
one entry per invocation, but the notification agent with an SMS
collaborator that fails every attempt appends four entries (three
attempt failures and the retry-exhaustion entry) to the empty input
log. -/
theorem notification_appends_four_entries :
    (notification_agent
      { technician_id := some "t1", job_id := some "j1" }
      ["j1"] [⟨"t1", some "0700"⟩] (fun _ => .error "boom")).messages
    = [⟨"notification_agent", "SMS attempt 1 failed: boom"⟩,
       ⟨"notification_agent", "SMS attempt 2 failed: boom"⟩,
       ⟨"notification_agent", "SMS attempt 3 failed: boom"⟩,
       ⟨"notification_agent", "Max retries reached, SMS failed"⟩] := by
  decide

/-- C10 (amended): the event log is append-only — every verified
agent returns its input message list as an unmodified prefix with at
least one appended entry; the sizing agent appends exactly one entry
per invocation, while the weather agent may append two (timestamp
parse failure) and the notification agent up to four (retry loop). -/
theorem agents_append_nonempty :
    (∀ (s : JState) (jobs : List String) (w : Except String Unit)
        (psh : ℚ → ℚ → Except String ℚ),
      ∃ m, (sizing_agent s jobs w psh).messages = s.messages ++ [m])
    ∧ (∀ (s : JState) (now : ℤ) (parseIso : String → Option ℤ)
        (nowIso : String) (psh : ℚ → ℚ → Except String ℚ),
      ∃ ms, ms ≠ [] ∧
        (weather_update_agent s now parseIso nowIso psh).messages
          = s.messages ++ ms)
    ∧ (∀ (s : JState) (jobs : List String) (users : List DbUser)
        (send : Nat → Except String Unit),
      ∃ ms, ms ≠ [] ∧
        (notification_agent s jobs users send).messages
          = s.messages ++ ms) := by
  refine ⟨?_, ?_, ?_⟩
  · intro s jobs w psh
    by_cases hv : sizingAgentValid s = true
    · exact ⟨⟨"sizing_agent", "Sizing calculation failed: " ++ SIZING_TYPEERROR⟩,
        by simp [sizing_agent, hv, calculate_sizing]⟩
    · exact ⟨⟨"sizing_agent",
        "Skipping sizing: missing required fields (system_type, appliances, position, or job_id)"⟩,
        by simp [sizing_agent, hv]⟩
  · intro s now parseIso nowIso psh
    unfold weather_update_agent
    by_cases hv : weatherAgentValid s = true
    · rw [if_neg (by simp [hv])]
      split
      next =>
        obtain ⟨m, hm⟩ := weatherCore_appends s [] nowIso psh
        exact ⟨[m], by simp, by simpa using hm⟩
      next lc hlc =>
        split
        next t hpi =>
          by_cases hts : now - t < 30
          · refine ⟨[⟨"weather_update_agent",
              "Skipping weather update: too soon"⟩], by simp, ?_⟩
            rw [if_pos hts]
          · obtain ⟨m, hm⟩ := weatherCore_appends s [] nowIso psh
            refine ⟨[m], by simp, ?_⟩
            rw [if_neg hts]
            simpa using hm
        next hpi =>
          obtain ⟨m, hm⟩ := weatherCore_appends s
            [⟨"weather_update_agent", "Invalid last_weather_check format"⟩]
            nowIso psh
          exact ⟨[⟨"weather_update_agent",
            "Invalid last_weather_check format"⟩] ++ [m], by simp, hm⟩
    · refine ⟨[⟨"weather_update_agent",
        "Skipping weather update: missing position or job_id"⟩], by simp, ?_⟩
      rw [if_pos hv]
  · intro s jobs users send
    unfold notification_agent
    by_cases h1 : (truthyStr s.technician_id && truthyStr s.job_id) = true
    · rw [if_neg (by simp [h1])]
      by_cases h2 : (s.job_id.getD "") ∈ jobs
      · rw [if_neg (not_not_intro h2)]
        split
        next hu =>
          exact ⟨[⟨"notification_agent",
            "Technician " ++ s.technician_id.getD "" ++
            " has no phone number"⟩], by simp, rfl⟩
        next u hu =>
          by_cases hp : truthyStr u.phone = true
          · refine ⟨smsTry (s.job_id.getD "") send 3 0,
              smsTry_ne_nil _ _ 3 0 (by norm_num), ?_⟩
            rw [if_neg (by simp [hp])]
          · refine ⟨[⟨"notification_agent",
              "Technician " ++ s.technician_id.getD "" ++
              " has no phone number"⟩], by simp, ?_⟩
            rw [if_pos hp]
      · refine ⟨[⟨"notification_agent",
          "Job " ++ s.job_id.getD "" ++ " not found in database"⟩],
          by simp, ?_⟩
        rw [if_pos h2]
    · refine ⟨[⟨"notification_agent",
        "Skipping notification: missing technician_id or job_id"⟩],
        by simp, ?_⟩
      rw [if_pos (by simp [h1])]

end SolarSync
